import Mathlib

/-!
Verification of the query-synthesis-and-self-healing-execution pipeline of
`src/flask_app.py` (a FastAPI application exposing `get_response`).

The Python source is shallowly embedded:

* `extractSQL` embeds the SQL-extraction step
  `generated_query = sql_llm(sql_prompt)[6:-3]` (line 193): a Python slice
  with clamped bounds, removing the first 6 and last 3 characters.
* `pyListStr` embeds Python's `str` rendering of a list of strings, as it is
  interpolated by `template.format(query=query, tables=tables)`; each element
  is rendered by `pyRepr`, which models CPython's `repr` of a string (quote
  selection and character escaping).
* `compiledPrompt` embeds `template.format(...)` (lines 47-170, 174): the
  template literal is split at its two placeholders and carried verbatim.
* `comparePrompt` embeds `compare_template.format(...)` (lines 179-191, 204).
* `Scalar`/`pyStr` model a scalar value of a fetched row together with its
  Python `str` rendering; `format_response` embeds lines 36-40.
* `World`, `attemptStep`, `loopRun` and `get_response` embed the
  execution-with-recovery loop (lines 195-210): the external effects
  (`cursor.execute`, `cursor.fetchall`, `connection.commit`, the explanation
  LLM call) are an oracle indexed by the attempt number, each call either
  returning a value or raising; `connection.rollback` in the `except` arm is
  recorded as an event.  `loopRun` is fuel-indexed: a result of `none` for a
  given fuel means the `while not done` loop is still running after that many
  attempts.
-/

/-- A raised Python exception, kept opaque (the source's `except Exception`
discards its content). -/
inductive PyErr where
  | err
deriving DecidableEq, Repr

/-- A scalar value of a fetched row, carried together with the data Python's
`str` needs to render it: a string renders verbatim; a float is carried as
its decimal rendering (integer part and fractional digits). -/
inductive Scalar where
  | str (v : String)
  | float (ip : Int) (frac : String)
deriving DecidableEq, Repr

/-- Python's `str(item)` as applied by `format_response` (line 39). -/
def pyStr : Scalar → String
  | .str v => v
  | .float ip frac => toString ip ++ "." ++ frac

/-- Python's `sep.join(items)` (line 39). -/
def pyJoin (sep : String) : List String → String
  | [] => ""
  | [x] => x
  | x :: y :: rest => x ++ sep ++ pyJoin sep (y :: rest)

/-- Embedding of `format_response` (lines 36-40): starting from the empty
string, append for each row the ` | `-joined cell renderings followed by a
blank line. -/
def format_response (rows : List (List Scalar)) : String :=
  rows.foldl (fun text row => text ++ pyJoin " | " (row.map pyStr) ++ "\n\n") ""

/-- Embedding of the Python slice `s[6:-3]` (line 193): keep the characters
from index 6 up to (length - 3), with out-of-range bounds clamped.  Nat
subtraction makes the upper bound clamp at 0 exactly as Python does. -/
def extractSQL (s : String) : String :=
  String.mk ((s.data.take (s.data.length - 3)).drop 6)

/-- The text of the synthesis prompt `template` (lines 47-170) before the
`query` placeholder. -/
def tplPart1 : String := "\nYou are a PostgreSQL expert. Your task is to generate only SQL queries to be run in a Python environment using the `psycopg2` library.\nUse double quotes around table names always\nThe SQL query should be based on this user query: "

/-- The text of `template` between the `query` and `tables` placeholders. -/
def tplPart2 : String := ". The database has the following tables: "

/-- The text of `template` after the `tables` placeholder, up to (but not
including) its first occurrence of the character sequence `State` (which
falls inside the words `"StateResource" table` of the disambiguation
guidance). -/
def tplPart3a : String := ".\nUse only the table names and columns exactly as provided. Do not include or reference any tables or columns that are not listed.\nMake sure to reference the table names columns with the right names and spelling case too.\nEnsure the query is formatted correctly as a string for Python, following this pattern:\nSELECT column1, column2 FROM table_name WHERE condition = 'value';\n\nRemember:\n- Always match the exact spelling and case of the tables and columns.\n- Be prepared to generate complex queries if the user's request involves comparing products, locations, or metrics.\n- If the user asks to compare products across different metrics, use the relevant \"resource\" tables provided in the list.\n- For example, if asked to compare products across states, use the \""

/-- The text of `template` after the `tables` placeholder, from just after
its first occurrence of `State` to the end. -/
def tplPart3b : String := "Resource\" table to rank them by the relevant metric.\n\nThe schema of the database is as follows:\n```\ntable Lga\n  id                Int                 @id @default(autoincrement())\n  name              String\n  stateId           Int\n  state             State               @relation(fields: [stateId], references: [id])\n  lgaResources      LgaResource[]\n\ntable State\n  id                Int                 @id @default(autoincrement())\n  name              String              @unique\n  country           String?\n  lgas              Lga[]\n  stateResources    StateResource[]\n\ntable Category\n  id                Int        @id @default(autoincrement())\n  name              String\n  abbr              String?\n  unitOfMeasurement String?\n  subCategories SubCategory[]\n  resources         ResourceCategory[]\n\ntable ResourceCategory\n  resourceId Int\n  categoryId Int\n  resource   Resource @relation(fields: [resourceId], references: [id])\n  category   Category @relation(fields: [categoryId], references: [id])\n\n  @@id([resourceId, categoryId])  // Composite primary key\n\ntable SubCategory\n  id  Int @id @default(autoincrement())\n  name String\n  abbr String?\n  categoryId Int\n  category Category @relation(fields: [categoryId], references: [id])\n\ntable Resource\n  id                Int                 @id @default(autoincrement())\n  name              String @unique\n  stateResources    StateResource[]\n  lgaResources      LgaResource[]\n  createdAt         DateTime            @default(now())\n  lastModifiedOn    DateTime            @updatedAt\n  categories        ResourceCategory[]\n\n  @@index([name])\n\ntable StateResource\n  id         Int      @id @default(autoincrement())\n  resourceId Int\n  resource   Resource @relation(fields: [resourceId], references: [id])\n  stateId    Int\n  totalQuantity Float?\n  totalValue Float?\n  state      State    @relation(fields: [stateId], references: [id])\n\n  @@index([resourceId, stateId])\n  @@unique([stateId, resourceId])\n\ntable LgaResource\n  id         Int      @id @default(autoincrement())\n  identifier  String  @unique\n  resourceId Int\n  resource   Resource @relation(fields: [resourceId], references: [id])\n  lgaId      Int\n  lga        Lga      @relation(fields: [lgaId], references: [id])\n  quantity   String?\n  quality    Float?\n  value      Float?\n  collectionDate    String?\n  collectorName String?\n  collectorPhone String?\n  SampleId String?\n  locationName String?\n  locationLat Float?\n  locationLong Float?\n  locationAltitude Float?\n  locationPrecision Float?\n  harvestDate String?\n  quantityRating Float?\n  resourceQuantity Float?\n  labAnalysis String?\n  moistureContent String?\n  pestDiseaseIncidence String?\n  storageConditions String?\n  marketPrice String?\n  environmentalSustainabilty String?\n  agricCategorization Float?\n  solidMineralCategorization Float?\n  accessToMarket Float?\n  marketValue Float?\n  environmentalImpact Float?\n  valueChainAnalysis Float?\n  investmentOpportunities Float?\n  policiesRegulations Float?\n  industryChallenges Float?\n  locationLgaWard String?\n  townVillage String?\n  stakeholderEngagement Float?\n  submissionDate DateTime?\n  status String?\n  collectionStart DateTime?\n  collectionEnd DateTime?\n\n  @@index([resourceId, lgaId])```\n"

/-- The full text of `template` after the `tables` placeholder.  The literal
is carried split at its first occurrence of `State` so that occurrence
counts over the (large) template can be reasoned about without bulk kernel
evaluation; the concatenation restores the source text verbatim. -/
def tplPart3 : String := tplPart3a ++ "State" ++ tplPart3b

/-- A lowercase hexadecimal digit, for Python's `\xNN` escapes. -/
def hexDigit (d : Nat) : Char :=
  Char.ofNat (if d < 10 then 48 + d else 87 + d)

/-- CPython's rendering of one character inside a `repr`ed string delimited
by `quote`: backslash and the delimiter are backslash-escaped, newline,
carriage return and tab use their mnemonic escapes, other ASCII control
characters (and 0x7f) a `\xNN` escape, and every other character stands
for itself.  (CPython additionally `\x`/`\u`-escapes non-printable code
points above 0x7f; the theorems below only rely on this function over
ASCII, where it is exact.) -/
def pyReprChar (quote c : Char) : List Char :=
  if c = '\\' then ['\\', '\\']
  else if c = quote then ['\\', quote]
  else if c = '\n' then ['\\', 'n']
  else if c = '\r' then ['\\', 'r']
  else if c = '\t' then ['\\', 't']
  else if c.toNat < 32 ∨ c.toNat = 127 then
    ['\\', 'x', hexDigit (c.toNat / 16 % 16), hexDigit (c.toNat % 16)]
  else [c]

/-- CPython's `repr` quote selection: single quotes, unless the string
contains a single quote and no double quote. -/
def pyQuote (s : String) : Char :=
  if '\'' ∈ s.data ∧ '"' ∉ s.data then '"' else '\''

/-- Python's `repr` of a string: the selected quote around the escaped
characters. -/
def pyRepr (s : String) : String :=
  String.mk ([pyQuote s] ++ (s.data.map (pyReprChar (pyQuote s))).flatten ++ [pyQuote s])

/-- A character `repr` renders as itself inside single quotes: printable
ASCII other than the single quote and the backslash. -/
def plainChar (c : Char) : Bool :=
  decide (32 ≤ c.toNat) && decide (c.toNat ≤ 126) && (c != '\'') && (c != '\\')

/-- A string `repr` renders as itself between single quotes — true of
every table name `db_tables` can realistically return. -/
def pyPlain (s : String) : Prop := ∀ c ∈ s.data, plainChar c = true

instance (s : String) : Decidable (pyPlain s) := by
  unfold pyPlain
  infer_instance

/-- Python's `repr` of one string after another in a list display, as
produced by `str(tables)`: elements are `repr`ed and joined by `, `. -/
def pyListItems : List String → String
  | [] => ""
  | [t] => pyRepr t
  | t :: u :: rest => pyRepr t ++ ", " ++ pyListItems (u :: rest)

/-- Python's `str` rendering of a list of strings, as interpolated for
`tables` by `template.format(query=query, tables=tables)` (line 174). -/
def pyListStr (ts : List String) : String :=
  "[" ++ pyListItems ts ++ "]"

/-- Embedding of `sql_prompt = template.format(query=query, tables=tables)`
(line 174): the template text with the question and the rendered table list
substituted at the placeholders. -/
def compiledPrompt (query : String) (tables : List String) : String :=
  tplPart1 ++ query ++ tplPart2 ++ pyListStr tables ++ tplPart3

/-- The text of `compare_template` (lines 179-191) before the `query`
placeholder. -/
def cmpPart1 : String := "\n    Given a user query, sql code and corresponding result, Actual explanation to users.\n    Consider that the users are laymen with no coding knowledge, so don't explain the sql, just relate the result, context from code and the query.\n    query: "

/-- The text of `compare_template` between `query` and `sql_code`. -/
def cmpPart2 : String := "\n    sql_code: "

/-- The text of `compare_template` between `sql_code` and `sql_result`. -/
def cmpPart3 : String := "\n    sql_result: "

/-- The text of `compare_template` after the `sql_result` placeholder. -/
def cmpPart4 : String := "\n    If the answer to the question is not in the sql result, say that you could not process it, that the user should word the better, respond professionally.\n    Do not mention any technical term in your respoonse, like code, sql, result, etc. use data instead, and don't use personal pronouns like we, our, ...\n    And be aware of what the values represent. So, when asked to compare any two variables or talk about a variable, by rating and you see numerical values like (2, 3.0, 5.0, and so on), use the schema below:\n    0 - 3 being Low\n    4 - 6 being Average\n    7 - 10 being High\n    "

/-- Embedding of `compare_prompt = compare_template.format(query=query,
sql_code=generated_query, sql_result=response)` (line 204). -/
def comparePrompt (query sqlCode sqlResult : String) : String :=
  cmpPart1 ++ query ++ cmpPart2 ++ sqlCode ++ cmpPart3 ++ sqlResult ++ cmpPart4

/-- Number of (possibly overlapping) occurrences of a pattern in a character
list: one per position at which the pattern is a prefix of the remaining
suffix. -/
def countOcc (pat : List Char) : List Char → Nat
  | [] => 0
  | c :: rest => (cond (pat.isPrefixOf (c :: rest)) 1 0) + countOcc pat rest

/-- Number of newline characters in a string; the formatter terminates each
row with the blank-line separator `"\n\n"`, so for newline-free cell text
the formatted output holds exactly two newlines per row. -/
def countNl (s : String) : Nat := s.data.count '\n'

/-- An observable event of one pass through the `while not done` body
(lines 198-209): each external call is recorded when it is issued.
`exec` carries the statement passed to `cursor.execute`, `explain` the
prompt passed to the explanation LLM. -/
inductive Event where
  | exec (sql : String)
  | fetch
  | commit
  | explain (prompt : String)
  | rollback
deriving DecidableEq, Repr

/-- The external world of one request: the SQL-generation LLM (line 193)
and, indexed by the attempt number of the recovery loop, the outcomes of
`cursor.execute`, `cursor.fetchall`, `connection.commit` and the
explanation LLM call, each either returning or raising.
`connection.rollback` (line 209) is taken to succeed, as any exception it
raised would escape the handler. -/
structure World where
  sqlLLM : String → String
  execR : Nat → Except PyErr Unit
  fetchR : Nat → Except PyErr (List (List Scalar))
  commitR : Nat → Except PyErr (Unit)
  explainR : Nat → String → Except PyErr String

/-- One pass through the `try` body for attempt `i` (lines 199-209): execute
the statement, fetch all rows, format them, commit, build the comparison
prompt and call the explanation LLM; the first raising call sends control to
the `except` arm, which rolls back.  Returns the events issued and, when
every call returned, the explanation that sets `done = True`. -/
def attemptStep (w : World) (userQ genQ : String) (i : Nat) :
    List Event × Option String :=
  match w.execR i with
  | .error _ => ([.exec genQ, .rollback], none)
  | .ok _ =>
    match w.fetchR i with
    | .error _ => ([.exec genQ, .fetch, .rollback], none)
    | .ok rows =>
      match w.commitR i with
      | .error _ => ([.exec genQ, .fetch, .commit, .rollback], none)
      | .ok _ =>
        match w.explainR i (comparePrompt userQ genQ (format_response rows)) with
        | .error _ => ([.exec genQ, .fetch, .commit,
            .explain (comparePrompt userQ genQ (format_response rows)), .rollback], none)
        | .ok e => ([.exec genQ, .fetch, .commit,
            .explain (comparePrompt userQ genQ (format_response rows))], some e)

/-- The `while not done` loop (lines 197-209), fuel-indexed: run up to
`fuel` attempts starting at attempt `i`, accumulating the events issued.  A
second component of `none` means the loop is still running after `fuel`
attempts; `some e` means an attempt fully succeeded with explanation `e`. -/
def loopRun (w : World) (userQ genQ : String) : Nat → Nat → List Event × Option String
  | _, 0 => ([], none)
  | i, fuel + 1 =>
    match attemptStep w userQ genQ i with
    | (tr, some e) => (tr, some e)
    | (tr, none) =>
      let rest := loopRun w userQ genQ (i + 1) fuel
      (tr ++ rest.1, rest.2)

/-- Embedding of `get_response` (lines 172-210): compile the synthesis
prompt, obtain the raw completion from the SQL-generation LLM, slice out
the statement, then enter the recovery loop. -/
def get_response (w : World) (tables : List String) (query : String)
    (fuel : Nat) : List Event × Option String :=
  loopRun w query (extractSQL (w.sqlLLM (compiledPrompt query tables))) 0 fuel

/-- The event trace of a run in which every execution attempt raises:
`fuel` repetitions of executing the same statement and rolling back. -/
def failTrace (q : String) : Nat → List Event
  | 0 => []
  | n + 1 => Event.exec q :: Event.rollback :: failTrace q n

/-- Recognizer for `exec` events. -/
def isExec : Event → Bool
  | .exec _ => true
  | _ => false

/-- Recognizer for `commit` events. -/
def isCommit : Event → Bool
  | .commit => true
  | _ => false

/-- Recognizer for `explain` events. -/
def isExplain : Event → Bool
  | .explain _ => true
  | _ => false

/-- Recognizer for `rollback` events. -/
def isRollback : Event → Bool
  | .rollback => true
  | _ => false

/-- A trace is clean when every execution that is not the very first is
immediately preceded by a rollback: no retry begins before the failed
transaction was rolled back. -/
def okTrace : List Event → Bool
  | a :: b :: rest => (!(isExec b) || isRollback a) && okTrace (b :: rest)
  | _ => true

/-- A world whose `cursor.execute` raises on every attempt. -/
def wAllFail : World :=
  ⟨fun _ => "", fun _ => .error PyErr.err, fun _ => .ok [], fun _ => .ok (),
   fun _ _ => .ok ""⟩

/-- A world in which execution, fetch and commit always succeed (returning
the fixture row) and the explanation LLM raises on attempt 0 and succeeds
from attempt 1 on. -/
def wExplFail1 : World :=
  ⟨fun _ => "", fun _ => .ok (), fun _ => .ok [[Scalar.str "Benue", Scalar.float 500 "0"]],
   fun _ => .ok (), fun i _ => if i = 0 then .error PyErr.err else .ok "E"⟩

/-- A world in which the database calls always succeed with the fixture row
and the explanation LLM raises on attempts 0 and 1 and succeeds from
attempt 2 on. -/
def wExplFail2 : World :=
  ⟨fun _ => "", fun _ => .ok (), fun _ => .ok [[Scalar.str "Benue", Scalar.float 500 "0"]],
   fun _ => .ok (), fun i _ => if i < 2 then .error PyErr.err else .ok "E"⟩

/-- `s[6:-3]` on a string that decomposes as a 6-character block, a middle
and a 3-character block returns exactly the middle, whatever the blocks
contain. -/
theorem extractSQL_append (p mid q : String) (hp : p.length = 6)
    (hq : q.length = 3) : extractSQL (p ++ mid ++ q) = mid := by
  have hdata : (p ++ mid ++ q).data = p.data ++ (mid.data ++ q.data) := by
    simp [String.data_append, List.append_assoc]
  have hplen : p.data.length = 6 := hp
  have hqlen : q.data.length = 3 := hq
  unfold extractSQL
  rw [hdata]
  have hlen : (p.data ++ (mid.data ++ q.data)).length = 6 + mid.data.length + 3 := by
    simp [hplen, hqlen]; omega
  rw [hlen]
  have h1 : 6 + mid.data.length + 3 - 3 = p.data.length + mid.data.length := by
    omega
  rw [h1, List.take_append_eq_append_take]
  have h2 : p.data.length + mid.data.length - p.data.length = mid.data.length := by
    omega
  simp [h2, List.take_append_eq_append_take, List.drop_append_eq_append_drop,
    hplen]

/-- The length of `s[6:-3]` is the clamped `length - 9`. -/
theorem extractSQL_length (s : String) : (extractSQL s).length = s.length - 9 := by
  cases s with
  | mk data =>
    simp [extractSQL, String.length, List.length_take, List.length_drop]
    omega

/-- The only string the slice `[6:-3]` leaves unchanged is the empty
string. -/
theorem extractSQL_fixed (t : String) : extractSQL t = t ↔ t = "" := by
  constructor
  · intro h
    have hl : (extractSQL t).length = t.length := by rw [h]
    rw [extractSQL_length] at hl
    have hz : t.length = 0 := by omega
    cases t with
    | mk data =>
      have : data = [] := List.length_eq_zero.mp hz
      simp [this]
  · intro h
    subst h
    rfl

/-- C4: for every raw completion string, the SQL Synthesizer extracts the
statement by unconditionally removing a fixed-length prefix of 6 characters
and a fixed-length suffix of 3 characters, with no validation: whatever the
6-character prefix and 3-character suffix actually contain, `s[6:-3]`
returns exactly what stands between them. -/
theorem c4_fixed_offset_extraction (p mid q : String) (hp : p.length = 6)
    (hq : q.length = 3) : extractSQL (p ++ mid ++ q) = mid :=
  extractSQL_append p mid q hp hq

/-- Witness for C4 at a concrete fenced completion. -/
theorem c4_fixed_offset_extraction_witness :
    extractSQL ("```sql" ++ "SELECT name FROM t;" ++ "```") = "SELECT name FROM t;" :=
  c4_fixed_offset_extraction "```sql" "SELECT name FROM t;" "```" rfl rfl

/-- C5 counterexample: the completion made of ten backticks is a raw
completion string whose extracted query still contains a backtick
code-fence marker, refuting the claim that every extracted query is free
of them. -/
theorem c5_backtick_counterexample :
    '`' ∈ (extractSQL "``````````").data := by decide

/-- C5 amended: the extracted query is free of markdown code-fence markers
provided the completion is correctly fenced, that is of the form
` ```sql<body>``` ` with a backtick-free body; for an arbitrary completion
the slice gives no such guarantee. -/
theorem c5_backtick_free_amended (body : String) (hb : '`' ∉ body.data) :
    '`' ∉ (extractSQL ("```sql" ++ body ++ "```")).data := by
  rw [extractSQL_append "```sql" body "```" rfl rfl]
  exact hb

/-- Witness for the amended C5 at a concrete backtick-free body. -/
theorem c5_backtick_free_amended_witness :
    '`' ∉ (extractSQL ("```sql" ++ "SELECT 1;" ++ "```")).data :=
  c5_backtick_free_amended "SELECT 1;" (by decide)

/-- C6 counterexample: on the correctly fenced completion
` ```sqlSELECT 1;``` ` the extraction is not idempotent: re-extracting the
already-extracted string `"SELECT 1;"` strips a further 6-character prefix
and 3-character suffix and changes it. -/
theorem c6_idempotence_counterexample :
    extractSQL (extractSQL "```sqlSELECT 1;```") ≠ extractSQL "```sqlSELECT 1;```" := by
  decide

/-- C6 amended: the fixed-offset extraction is not idempotent; applying it a
second time to an already-extracted string is a no-op exactly when that
string is empty.  What does hold for every correctly fenced completion is
that re-fencing the extracted body and extracting again returns it
unchanged. -/
theorem c6_idempotence_amended :
    (∀ t : String, extractSQL t = t ↔ t = "") ∧
    (∀ body : String, extractSQL ("```sql" ++ body ++ "```") = body) :=
  ⟨extractSQL_fixed, fun body => extractSQL_append "```sql" body "```" rfl rfl⟩

/-- C10: the fixed-offset extraction is total: for every completion string,
including the empty string and any string shorter than 9 characters, the
slice returns a string (of clamped length `max 0 (length - 9)`) rather than
faulting. -/
theorem c10_slice_total :
    (∀ s : String, (extractSQL s).length = s.length - 9) ∧
    extractSQL "" = "" ∧ extractSQL "abcdefgh" = "" :=
  ⟨extractSQL_length, rfl, rfl⟩

/-- Prepending text never removes occurrences of a pattern. -/
theorem le_countOcc_append (pat l m : List Char) :
    countOcc pat m ≤ countOcc pat (l ++ m) := by
  induction l with
  | nil => simp
  | cons c rest ih =>
    calc countOcc pat m ≤ countOcc pat (rest ++ m) := ih
    _ ≤ countOcc pat (c :: (rest ++ m)) := by
        simp [countOcc]
    _ = countOcc pat ((c :: rest) ++ m) := rfl

/-- A nonempty pattern sitting at the head of a list is counted, on top of
every occurrence in the remainder. -/
theorem countOcc_self_append (p : Char) (ps m : List Char) :
    1 + countOcc (p :: ps) m ≤ countOcc (p :: ps) ((p :: ps) ++ m) := by
  have hpre : (p :: ps).isPrefixOf ((p :: ps) ++ m) = true := by
    simp [List.isPrefixOf_iff_prefix]
  have hc : countOcc (p :: ps) ((p :: ps) ++ m)
      = 1 + countOcc (p :: ps) (ps ++ m) := by
    conv_lhs => rw [List.cons_append, countOcc]
    rw [List.cons_append] at hpre
    rw [hpre]
    simp
  rw [hc]
  have := le_countOcc_append (p :: ps) ps m
  omega

/-- A list exhibiting two marked occurrences of a nonempty pattern contains
the pattern at least twice. -/
theorem two_le_countOcc (p : Char) (ps a b c : List Char) :
    2 ≤ countOcc (p :: ps) (a ++ ((p :: ps) ++ (b ++ ((p :: ps) ++ c)))) := by
  have h1 : 1 ≤ countOcc (p :: ps) ((p :: ps) ++ c) := by
    have := countOcc_self_append p ps c
    omega
  have h2 : countOcc (p :: ps) ((p :: ps) ++ c)
      ≤ countOcc (p :: ps) (b ++ ((p :: ps) ++ c)) :=
    le_countOcc_append _ _ _
  have h3 := countOcc_self_append p ps (b ++ ((p :: ps) ++ c))
  have h4 := le_countOcc_append (p :: ps) a ((p :: ps) ++ (b ++ ((p :: ps) ++ c)))
  omega

/-- On a plain character, `repr`'s single-quote rendering is the character
itself. -/
theorem pyReprChar_plain (c : Char) (h : plainChar c = true) :
    pyReprChar '\'' c = [c] := by
  simp [plainChar] at h
  obtain ⟨⟨⟨h1, h2⟩, h3⟩, h4⟩ := h
  have hn : c ≠ '\n' := by rintro rfl; exact absurd h1 (by decide)
  have hr : c ≠ '\r' := by rintro rfl; exact absurd h1 (by decide)
  have htb : c ≠ '\t' := by rintro rfl; exact absurd h1 (by decide)
  have hx : ¬(c.toNat < 32 ∨ c.toNat = 127) := by omega
  simp [pyReprChar, h3, h4, hn, hr, htb, hx]

/-- A plain string contains no single quote, so `repr` keeps single-quote
delimiters for it. -/
theorem pyQuote_plain (s : String) (h : pyPlain s) : pyQuote s = '\'' := by
  have hq : '\'' ∉ s.data := by
    intro hmem
    have := h _ hmem
    simp [plainChar] at this
  simp [pyQuote, hq]

/-- Escaping a list of plain characters for single quotes is the
identity. -/
theorem flatten_map_pyReprChar (l : List Char) (h : ∀ c ∈ l, plainChar c = true) :
    (l.map (pyReprChar '\'')).flatten = l := by
  induction l with
  | nil => rfl
  | cons c rest ih =>
    have hc := pyReprChar_plain c (h c (by simp))
    simp [hc]
    exact ih (fun x hx => h x (by simp [hx]))

/-- Python's `repr` of a plain string is the string between single
quotes. -/
theorem pyRepr_plain (s : String) (h : pyPlain s) :
    pyRepr s = "'" ++ s ++ "'" := by
  unfold pyRepr
  rw [pyQuote_plain s h, flatten_map_pyReprChar s.data h]
  apply String.ext
  cases s with
  | mk data => simp [String.data_append]

/-- A plain element of a table-name list occurs verbatim inside the list's
Python rendering. -/
theorem infix_pyListItems (t : String) (ts : List String) (ht : t ∈ ts)
    (hplain : ∀ u ∈ ts, pyPlain u) :
    t.data <:+: (pyListItems ts).data := by
  induction ts with
  | nil => cases ht
  | cons u rest ih =>
    cases rest with
    | nil =>
      rcases List.mem_singleton.mp ht with rfl
      rw [show pyListItems [t] = pyRepr t from rfl,
        pyRepr_plain t (hplain t (by simp))]
      exact ⟨"'".data, "'".data, by simp [String.data_append]⟩
    | cons v more =>
      rcases List.mem_cons.mp ht with rfl | hmem
      · rw [show pyListItems (t :: v :: more)
            = pyRepr t ++ ", " ++ pyListItems (v :: more) from rfl,
          pyRepr_plain t (hplain t (by simp))]
        exact ⟨"'".data, ("'" ++ ", " ++ pyListItems (v :: more)).data,
          by simp [String.data_append]⟩
      · have hplain' : ∀ x ∈ v :: more, pyPlain x := fun x hx => hplain x (by simp [hx])
        rcases ih hmem hplain' with ⟨s, e, hse⟩
        exact ⟨(pyRepr u ++ ", ").data ++ s, e,
          by simp [pyListItems, String.data_append, ← hse]⟩

/-- C7 counterexample: for the schema snapshot `["State"]` and question
`"hi"`, the compiled synthesis prompt does not contain the table name
`State` exactly once — the fixed schema description embedded in the
template already mentions it — refuting the claim that every table name of
the snapshot occurs exactly once in the prompt. -/
theorem c7_exactly_once_counterexample :
    countOcc "State".data (compiledPrompt "hi" ["State"]).data ≠ 1 := by
  have hrepr : pyRepr "State" = "'" ++ "State" ++ "'" :=
    pyRepr_plain "State" (by decide)
  have hdec : (compiledPrompt "hi" ["State"]).data
      = (tplPart1.data ++ "hi".data ++ tplPart2.data ++ "['".data)
        ++ ("State".data
        ++ (("']".data ++ tplPart3a.data)
        ++ ("State".data ++ tplPart3b.data))) := by
    simp [compiledPrompt, pyListStr, pyListItems, hrepr, tplPart3, String.data_append]
  have hS : "State".data = 'S' :: "tate".data := rfl
  rw [hdec, hS]
  have := two_le_countOcc 'S' "tate".data
    (tplPart1.data ++ "hi".data ++ tplPart2.data ++ "['".data)
    ("']".data ++ tplPart3a.data) tplPart3b.data
  omega

/-- C7 amended: for every schema snapshot of plain table names (names
`repr` renders as themselves: printable ASCII without single quotes or
backslashes, which covers everything `db_tables` returns) and every
question, the compiled synthesis prompt contains each table name of the
snapshot verbatim at least once (not exactly once: the fixed schema
description also mentions table names) and contains the question verbatim
as a substring; a name needing `repr` escaping appears in escaped form
instead. -/
theorem c7_prompt_grounding_amended (tables : List String) (query t : String)
    (ht : t ∈ tables) (hplain : ∀ u ∈ tables, pyPlain u) :
    t.data <:+: (compiledPrompt query tables).data ∧
    query.data <:+: (compiledPrompt query tables).data := by
  constructor
  · rcases infix_pyListItems t tables ht hplain with ⟨s, e, hse⟩
    exact ⟨(tplPart1 ++ query ++ tplPart2 ++ "[").data ++ s,
      e ++ ("]" ++ tplPart3).data,
      by simp [compiledPrompt, pyListStr, String.data_append, ← hse]⟩
  · exact ⟨tplPart1.data,
      (tplPart2 ++ pyListStr tables ++ tplPart3).data,
      by simp [compiledPrompt, String.data_append]⟩

/-- Witness for the amended C7 at a concrete snapshot and question. -/
theorem c7_prompt_grounding_amended_witness :
    "State".data <:+: (compiledPrompt "hi" ["State"]).data ∧
    "hi".data <:+: (compiledPrompt "hi" ["State"]).data :=
  c7_prompt_grounding_amended ["State"] "hi" "State" (List.mem_singleton.mpr rfl)
    (by intro u hu; rcases List.mem_singleton.mp hu with rfl; decide)

/-- Newline counting distributes over appending. -/
theorem countNl_append (a b : String) : countNl (a ++ b) = countNl a + countNl b := by
  simp [countNl, String.data_append, List.count_append]

/-- Joining newline-free cells with the column separator ` | ` yields a
newline-free row text. -/
theorem countNl_pyJoin (l : List String) (h : ∀ x ∈ l, countNl x = 0) :
    countNl (pyJoin " | " l) = 0 := by
  induction l with
  | nil => rfl
  | cons x rest ih =>
    cases rest with
    | nil => simpa [pyJoin] using h x (by simp)
    | cons y more =>
      have hx := h x (by simp)
      have hr : ∀ z ∈ y :: more, countNl z = 0 := fun z hz => h z (by simp [hz])
      rw [pyJoin, countNl_append, countNl_append, hx, ih hr]
      rfl

/-- The accumulating loop of `format_response` adds exactly two newlines per
row when every cell rendering is newline-free. -/
theorem countNl_foldl (rows : List (List Scalar)) (acc : String)
    (h : ∀ row ∈ rows, ∀ v ∈ row, countNl (pyStr v) = 0) :
    countNl (rows.foldl
      (fun text row => text ++ pyJoin " | " (row.map pyStr) ++ "\n\n") acc)
      = countNl acc + 2 * rows.length := by
  induction rows generalizing acc with
  | nil => simp
  | cons row rest ih =>
    have hrow : countNl (pyJoin " | " (row.map pyStr)) = 0 := by
      apply countNl_pyJoin
      intro x hx
      rcases List.mem_map.mp hx with ⟨v, hv, rfl⟩
      exact h row (by simp) v hv
    have hrest : ∀ r ∈ rest, ∀ v ∈ r, countNl (pyStr v) = 0 :=
      fun r hr v hv => h r (by simp [hr]) v hv
    rw [List.foldl_cons, ih _ hrest, countNl_append, countNl_append, hrow]
    have h2 : countNl "\n\n" = 2 := rfl
    rw [h2]
    simp [List.length_cons]
    omega

/-- C8: the Result Formatter `format_response` is a total, deterministic
function (a Lean function) over well-formed tabular input: the empty result
set maps to the empty string; a result set whose cell renderings are
newline-free maps to a string with exactly two newline characters per input
row (each row contributes exactly one trailing blank-line separator
`"\n\n"`, so the output row count equals the input row count); and the
single fixture row `("Benue", 500.0)` maps to exactly `"Benue | 500.0\n\n"`
(cells joined by `" | "`, row followed by a blank line). -/
theorem c8_formatter (rows : List (List Scalar))
    (h : ∀ row ∈ rows, ∀ v ∈ row, countNl (pyStr v) = 0) :
    format_response [] = "" ∧
    countNl (format_response rows) = 2 * rows.length ∧
    format_response [[Scalar.str "Benue", Scalar.float 500 "0"]] = "Benue | 500.0\n\n" := by
  refine ⟨rfl, ?_, by decide⟩
  have hmain := countNl_foldl rows "" h
  have hz : countNl "" = 0 := rfl
  rw [hz] at hmain
  simpa [format_response] using hmain

/-- Witness for C8 at the fixture result set. -/
theorem c8_formatter_witness :
    format_response [] = "" ∧
    countNl (format_response [[Scalar.str "Benue", Scalar.float 500 "0"]])
      = 2 * ([[Scalar.str "Benue", Scalar.float 500 "0"]] : List (List Scalar)).length ∧
    format_response [[Scalar.str "Benue", Scalar.float 500 "0"]] = "Benue | 500.0\n\n" :=
  c8_formatter [[Scalar.str "Benue", Scalar.float 500 "0"]] (by decide)

/-- Unfolding of an attempt whose `cursor.execute` raises. -/
theorem attemptStep_execFail (w : World) (uq gq : String) (i : Nat)
    (h : w.execR i = .error PyErr.err) :
    attemptStep w uq gq i = ([.exec gq, .rollback], none) := by
  simp [attemptStep, h]

/-- Unfolding of an attempt whose `cursor.fetchall` raises. -/
theorem attemptStep_fetchFail (w : World) (uq gq : String) (i : Nat) (u : Unit)
    (he : w.execR i = .ok u) (h : w.fetchR i = .error PyErr.err) :
    attemptStep w uq gq i = ([.exec gq, .fetch, .rollback], none) := by
  simp [attemptStep, he, h]

/-- Unfolding of an attempt whose `connection.commit` raises. -/
theorem attemptStep_commitFail (w : World) (uq gq : String) (i : Nat) (u : Unit)
    (rows : List (List Scalar)) (he : w.execR i = .ok u) (hf : w.fetchR i = .ok rows)
    (h : w.commitR i = .error PyErr.err) :
    attemptStep w uq gq i = ([.exec gq, .fetch, .commit, .rollback], none) := by
  simp [attemptStep, he, hf, h]

/-- Unfolding of an attempt whose explanation LLM call raises, after the
statement was executed and committed. -/
theorem attemptStep_explainFail (w : World) (uq gq : String) (i : Nat) (u v : Unit)
    (rows : List (List Scalar)) (he : w.execR i = .ok u) (hf : w.fetchR i = .ok rows)
    (hc : w.commitR i = .ok v)
    (h : w.explainR i (comparePrompt uq gq (format_response rows)) = .error PyErr.err) :
    attemptStep w uq gq i = ([.exec gq, .fetch, .commit,
      .explain (comparePrompt uq gq (format_response rows)), .rollback], none) := by
  simp [attemptStep, he, hf, hc, h]

/-- Unfolding of a fully successful attempt. -/
theorem attemptStep_allOk (w : World) (uq gq : String) (i : Nat) (u v : Unit)
    (rows : List (List Scalar)) (e : String) (he : w.execR i = .ok u)
    (hf : w.fetchR i = .ok rows) (hc : w.commitR i = .ok v)
    (h : w.explainR i (comparePrompt uq gq (format_response rows)) = .ok e) :
    attemptStep w uq gq i = ([.exec gq, .fetch, .commit,
      .explain (comparePrompt uq gq (format_response rows))], some e) := by
  simp [attemptStep, he, hf, hc, h]

/-- The loop on a failed attempt rolls back and re-enters with one unit of
fuel spent. -/
theorem loopRun_succ_fail (w : World) (uq gq : String) (i fuel : Nat) (tr : List Event)
    (h : attemptStep w uq gq i = (tr, none)) :
    loopRun w uq gq i (fuel + 1)
      = (tr ++ (loopRun w uq gq (i + 1) fuel).1, (loopRun w uq gq (i + 1) fuel).2) := by
  simp [loopRun, h]

/-- The loop on a successful attempt exits with its result. -/
theorem loopRun_succ_ok (w : World) (uq gq : String) (i fuel : Nat) (tr : List Event)
    (e : String) (h : attemptStep w uq gq i = (tr, some e)) :
    loopRun w uq gq i (fuel + 1) = (tr, some e) := by
  simp [loopRun, h]

/-- Cleanness is unaffected by a leading rollback. -/
theorem okTrace_rollback_cons (t : List Event) :
    okTrace (Event.rollback :: t) = okTrace t := by
  cases t <;> simp [okTrace, isExec, isRollback]

/-- Cleanness is unaffected by a leading execute-rollback block. -/
theorem okTrace_b1 (g : String) (t : List Event) :
    okTrace (Event.exec g :: Event.rollback :: t) = okTrace t := by
  simp [okTrace, isExec, isRollback, okTrace_rollback_cons]

/-- Cleanness is unaffected by a leading execute-fetch-rollback block. -/
theorem okTrace_b2 (g : String) (t : List Event) :
    okTrace (Event.exec g :: Event.fetch :: Event.rollback :: t) = okTrace t := by
  simp [okTrace, isExec, isRollback, okTrace_rollback_cons]

/-- Cleanness is unaffected by a leading execute-fetch-commit-rollback
block. -/
theorem okTrace_b3 (g : String) (t : List Event) :
    okTrace (Event.exec g :: Event.fetch :: Event.commit :: Event.rollback :: t)
      = okTrace t := by
  simp [okTrace, isExec, isRollback, okTrace_rollback_cons]

/-- Cleanness is unaffected by a leading
execute-fetch-commit-explain-rollback block. -/
theorem okTrace_b4 (g p : String) (t : List Event) :
    okTrace (Event.exec g :: Event.fetch :: Event.commit :: Event.explain p ::
      Event.rollback :: t) = okTrace t := by
  simp [okTrace, isExec, isRollback, okTrace_rollback_cons]

/-- The trace of a fully successful attempt is clean. -/
theorem okTrace_success (g p : String) :
    okTrace [Event.exec g, Event.fetch, Event.commit, Event.explain p] = true := by
  simp [okTrace, isExec, isRollback]

/-- C1: for a synthesized statement whose execution raises on every attempt,
the recovery loop never terminates: for every amount of fuel the loop is
still running (result `none`, never a success and never any other exit),
and its trace is exactly `fuel` repetitions of executing the same unmodified
statement and rolling back — no backoff, no retry limit, no regeneration of
the SQL.  Success is the only way out of the loop. -/
theorem c1_unbounded_retry (w : World) (userQ genQ : String)
    (hfail : ∀ i, w.execR i = .error PyErr.err) :
    ∀ fuel i, loopRun w userQ genQ i fuel = (failTrace genQ fuel, none) := by
  intro fuel
  induction fuel with
  | zero => intro i; rfl
  | succ n ih =>
    intro i
    rw [loopRun_succ_fail w userQ genQ i n _ (attemptStep_execFail w userQ genQ i (hfail i)),
      ih (i + 1)]
    rfl

/-- Witness for C1: in the always-failing world, three units of fuel leave
the loop still running with three execute-rollback rounds. -/
theorem c1_unbounded_retry_witness :
    loopRun wAllFail "u" "g" 0 3 = (failTrace "g" 3, none) :=
  c1_unbounded_retry wAllFail "u" "g" (fun _ => rfl) 3 0

/-- C9: every trace the recovery loop can produce is clean: whenever an
attempt fails, the rollback of the current transaction happens before the
next execution attempt begins (in the trace, every `exec` other than the
first is immediately preceded by a `rollback`). -/
theorem c9_rollback_before_retry (w : World) (uq gq : String) :
    ∀ fuel i, okTrace (loopRun w uq gq i fuel).1 = true := by
  intro fuel
  induction fuel with
  | zero => intro i; rfl
  | succ n ih =>
    intro i
    cases he : w.execR i with
    | error e =>
      cases e
      rw [loopRun_succ_fail w uq gq i n _ (attemptStep_execFail w uq gq i he)]
      simpa [okTrace_b1] using ih (i + 1)
    | ok u =>
      cases hf : w.fetchR i with
      | error e =>
        cases e
        rw [loopRun_succ_fail w uq gq i n _ (attemptStep_fetchFail w uq gq i u he hf)]
        simpa [okTrace_b2] using ih (i + 1)
      | ok rows =>
        cases hc : w.commitR i with
        | error e =>
          cases e
          rw [loopRun_succ_fail w uq gq i n _
            (attemptStep_commitFail w uq gq i u rows he hf hc)]
          simpa [okTrace_b3] using ih (i + 1)
        | ok v =>
          cases hx : w.explainR i (comparePrompt uq gq (format_response rows)) with
          | error e =>
            cases e
            rw [loopRun_succ_fail w uq gq i n _
              (attemptStep_explainFail w uq gq i u v rows he hf hc hx)]
            simpa [okTrace_b4] using ih (i + 1)
          | ok e =>
            rw [loopRun_succ_ok w uq gq i n _ e
              (attemptStep_allOk w uq gq i u v rows e he hf hc hx)]
            exact okTrace_success gq _

/-- C2 counterexample: in `wExplFail1` the explanation LLM call raises on
the first attempt, yet the request does not fail: the exception is caught
by the loop's handler and the loop returns the second attempt's
explanation, having issued the explanation call twice and executed and
committed the statement twice — so the failure neither propagates to the
caller nor goes unretried. -/
theorem c2_explanation_failure_counterexample :
    (loopRun wExplFail1 "u" "g" 0 2).2 = some "E" ∧
    (loopRun wExplFail1 "u" "g" 0 2).1.countP (fun e => isExplain e) = 2 ∧
    (loopRun wExplFail1 "u" "g" 0 2).1.countP (fun e => isExec e) = 2 ∧
    (loopRun wExplFail1 "u" "g" 0 2).1.countP (fun e => isCommit e) = 2 :=
  ⟨rfl, rfl, rfl, rfl⟩

/-- C2 amended: if the explanation LLM call of attempt `i` fails (after the
statement was executed, its rows fetched and the transaction committed),
the failure does not propagate to the caller: it is caught by the loop's
`except` arm, which rolls back and re-enters the loop, so the whole
attempt — statement execution, commit and explanation call included — is
retried with the remaining fuel, and the request's outcome is whatever the
continuation produces. -/
theorem c2_explanation_failure_caught (w : World) (uq gq : String)
    (rows : List (List Scalar)) (i fuel : Nat)
    (he : w.execR i = .ok ()) (hf : w.fetchR i = .ok rows)
    (hc : w.commitR i = .ok ())
    (hx : w.explainR i (comparePrompt uq gq (format_response rows)) = .error PyErr.err) :
    loopRun w uq gq i (fuel + 1)
      = ([Event.exec gq, Event.fetch, Event.commit,
          Event.explain (comparePrompt uq gq (format_response rows)), Event.rollback]
           ++ (loopRun w uq gq (i + 1) fuel).1,
         (loopRun w uq gq (i + 1) fuel).2) :=
  loopRun_succ_fail w uq gq i fuel _
    (attemptStep_explainFail w uq gq i () () rows he hf hc hx)

/-- Witness for the amended C2 in the concrete world `wExplFail1`. -/
theorem c2_explanation_failure_caught_witness :
    loopRun wExplFail1 "u" "g" 0 (1 + 1)
      = ([Event.exec "g", Event.fetch, Event.commit,
          Event.explain (comparePrompt "u" "g"
            (format_response [[Scalar.str "Benue", Scalar.float 500 "0"]])),
          Event.rollback]
           ++ (loopRun wExplFail1 "u" "g" 1 1).1,
         (loopRun wExplFail1 "u" "g" 1 1).2) :=
  c2_explanation_failure_caught wExplFail1 "u" "g"
    [[Scalar.str "Benue", Scalar.float 500 "0"]] 0 1 rfl rfl rfl rfl

/-- The recovery loop under permanently healthy database calls and an
explanation LLM that first succeeds at attempt `i + n`: starting at attempt
`i` with `n + 1` units of fuel, the loop returns that explanation after
executing and committing the statement `n + 1` times. -/
theorem loopRun_explain_retries (w : World) (uq gq : String)
    (rows : List (List Scalar)) (ex : String)
    (hexec : ∀ j, w.execR j = .ok ())
    (hfetch : ∀ j, w.fetchR j = .ok rows)
    (hcommit : ∀ j, w.commitR j = .ok ()) :
    ∀ n i,
    (∀ j, i ≤ j → j < i + n →
      w.explainR j (comparePrompt uq gq (format_response rows)) = .error PyErr.err) →
    w.explainR (i + n) (comparePrompt uq gq (format_response rows)) = .ok ex →
    (loopRun w uq gq i (n + 1)).2 = some ex ∧
    (loopRun w uq gq i (n + 1)).1.countP (fun e => isExec e) = n + 1 ∧
    (loopRun w uq gq i (n + 1)).1.countP (fun e => isCommit e) = n + 1 := by
  intro n
  induction n with
  | zero =>
    intro i _ hok
    rw [loopRun_succ_ok w uq gq i 0 _ ex
      (attemptStep_allOk w uq gq i () () rows ex (hexec i) (hfetch i) (hcommit i)
        (by simpa using hok))]
    exact ⟨rfl, rfl, rfl⟩
  | succ n ih =>
    intro i hfail hok
    have hx : w.explainR i (comparePrompt uq gq (format_response rows))
        = .error PyErr.err := hfail i (Nat.le_refl i) (by omega)
    rw [loopRun_succ_fail w uq gq i (n + 1) _
      (attemptStep_explainFail w uq gq i () () rows (hexec i) (hfetch i) (hcommit i) hx)]
    have hfail' : ∀ j, i + 1 ≤ j → j < (i + 1) + n →
        w.explainR j (comparePrompt uq gq (format_response rows)) = .error PyErr.err :=
      fun j h1 h2 => hfail j (by omega) (by omega)
    have hok' : w.explainR ((i + 1) + n) (comparePrompt uq gq (format_response rows))
        = .ok ex := by
      have h : (i + 1) + n = i + (n + 1) := by omega
      rw [h]
      exact hok
    rcases ih (i + 1) hfail' hok' with ⟨h2, hcexec, hccommit⟩
    refine ⟨h2, ?_, ?_⟩
    · rw [List.countP_append, hcexec]
      have hB : List.countP (fun e => isExec e)
          [Event.exec gq, Event.fetch, Event.commit,
           Event.explain (comparePrompt uq gq (format_response rows)),
           Event.rollback] = 1 := rfl
      rw [hB]
      omega
    · rw [List.countP_append, hccommit]
      have hB : List.countP (fun e => isCommit e)
          [Event.exec gq, Event.fetch, Event.commit,
           Event.explain (comparePrompt uq gq (format_response rows)),
           Event.rollback] = 1 := rfl
      rw [hB]
      omega

/-- C3: when statement execution, row fetch and commit always succeed but
the explanation LLM call raises on attempts `0, ..., n-1` and succeeds on
attempt `n`, the recovery loop returns that explanation within a single
request after executing the same synthesized statement `n + 1` times and
committing it `n + 1` times — an already-committed statement is re-executed
after its commit. -/
theorem c3_commit_then_reexecute (w : World) (uq gq : String)
    (rows : List (List Scalar)) (n : Nat) (ex : String)
    (hexec : ∀ j, w.execR j = .ok ())
    (hfetch : ∀ j, w.fetchR j = .ok rows)
    (hcommit : ∀ j, w.commitR j = .ok ())
    (hfail : ∀ j, j < n →
      w.explainR j (comparePrompt uq gq (format_response rows)) = .error PyErr.err)
    (hok : w.explainR n (comparePrompt uq gq (format_response rows)) = .ok ex) :
    (loopRun w uq gq 0 (n + 1)).2 = some ex ∧
    (loopRun w uq gq 0 (n + 1)).1.countP (fun e => isExec e) = n + 1 ∧
    (loopRun w uq gq 0 (n + 1)).1.countP (fun e => isCommit e) = n + 1 :=
  loopRun_explain_retries w uq gq rows ex hexec hfetch hcommit n 0
    (fun j _ hj => hfail j (by omega)) (by simpa using hok)

/-- Witness for C3 at `n = 2`: the loop returns the explanation after three
executions and three commits of the same statement. -/
theorem c3_commit_then_reexecute_witness :
    (loopRun wExplFail2 "u" "g" 0 (2 + 1)).2 = some "E" ∧
    (loopRun wExplFail2 "u" "g" 0 (2 + 1)).1.countP (fun e => isExec e) = 2 + 1 ∧
    (loopRun wExplFail2 "u" "g" 0 (2 + 1)).1.countP (fun e => isCommit e) = 2 + 1 :=
  c3_commit_then_reexecute wExplFail2 "u" "g"
    [[Scalar.str "Benue", Scalar.float 500 "0"]] 2 "E"
    (fun _ => rfl) (fun _ => rfl) (fun _ => rfl)
    (fun j hj => by simp [wExplFail2, hj])
    (by simp [wExplFail2])

